import Mathlib

/-!
Shallow embedding of the HealthBot backend (src/backend/server.py).

The backend is a query-and-history service: `ask_health_question` validates
a free-text question, invokes an external completion capability under a
fixed system message, persists the question/answer pair to a document
collection, and returns the generated answer; `get_chat_history` returns a
reverse-chronological page of one user's records plus the total matching
count; `get_health_stats` returns aggregate counts.

Modelling conventions:
- The Mongo collection `health_queries` is a `List ChatRecord` in insertion
  order; `insert_one` is list append.
- Timestamps are natural numbers (seconds since the epoch); the start of
  the current UTC day is truncation to a multiple of 86400, mirroring
  `datetime.now(timezone.utc).replace(hour=0, minute=0, second=0, microsecond=0)`.
- Python `str.strip()` is `pyStrip`, removal of leading and trailing
  whitespace characters (defined over the character list so that it is
  kernel-computable).
- External effects of the query handler (the completion call, the success
  of `insert_one`, the generated UUIDs, the wall-clock readings) are passed
  in explicitly through `QueryEnv`; the handler reads the clock once for
  the stored record (`clock 0`) and once for the response (`clock 1`),
  matching the two `datetime.now(timezone.utc)` calls in the source.
- The outcome records, besides the HTTP-level result and the new store
  state, the message text sent to the completion capability (`none` when
  the completion capability was never invoked), so that non-invocation
  claims are statable.
- Store reads (`count_documents`, `find`, `distinct`) are modelled as pure
  and infallible; a document-store I/O fault is an external failure, not a
  behaviour of this code.
-/

namespace HealthBot

/-- An HTTP-level error as raised by `HTTPException(status_code, detail)`. -/
structure HTTPError where
  status_code : Nat
  detail : String
deriving DecidableEq, Repr

/-- Request body of the query endpoint (`HealthQuery` in server.py). -/
structure HealthQuery where
  question : String
  user_id : Option String
deriving DecidableEq, Repr

/-- Response body of the query endpoint (`HealthResponse` in server.py). -/
structure HealthResponse where
  answer : String
  query_id : String
  timestamp : Nat
deriving DecidableEq, Repr

/-- One persisted document of the `health_queries` collection, as built at
lines 119-126 of server.py. -/
structure ChatRecord where
  id : String
  user_id : String
  question : String
  answer : String
  timestamp : Nat
  category : Option String
deriving DecidableEq, Repr

/-- One element of a history page (`ChatMessage` in server.py). -/
structure ChatMessage where
  id : String
  user_id : String
  question : String
  answer : String
  timestamp : Nat
  category : Option String
deriving DecidableEq, Repr

/-- Response body of the history endpoint (`ChatHistoryResponse`). -/
structure ChatHistoryResponse where
  messages : List ChatMessage
  total : Nat
deriving DecidableEq, Repr

/-- Response body of the stats endpoint (the dict returned at
lines 179-184 of server.py). -/
structure HealthStats where
  total_queries : Nat
  unique_users : Nat
  recent_queries_24h : Nat
  status : String
deriving DecidableEq, Repr

/-- The external effects consumed by one execution of the query handler:
the completion capability (given the session identifier and the user
message text, it returns generated text or an upstream failure), whether
`insert_one` succeeds, the two freshly generated UUIDs, and the successive
wall-clock readings. -/
structure QueryEnv where
  completion : String → String → Except String String
  insertOk : Bool
  session_uuid : String
  query_uuid : String
  clock : Nat → Nat

/-- Outcome of one execution of the query handler: the HTTP-level result,
the collection contents afterwards, and the message text handed to the
completion capability (`none` when no completion call was made). -/
structure QueryOutcome where
  result : Except HTTPError HealthResponse
  store : List ChatRecord
  sentMessage : Option String

/-- Python `str.strip()`: remove leading and trailing whitespace. -/
def pyStrip (s : String) : String :=
  ⟨((s.data.dropWhile Char.isWhitespace).reverse.dropWhile Char.isWhitespace).reverse⟩

/-- The session identifier minted at line 100 of server.py. -/
def mkSessionId (uuid : String) : String := "health_chat_" ++ uuid

/-- The opaque detail of the 500 error raised at line 138 of server.py. -/
def genericQueryErrorDetail : String :=
  "Sorry, I encountered an error processing your health question. Please try again."

/-- The document built at lines 119-126 of server.py and handed to
`insert_one`: the raw question as received, the generated answer, the
first wall-clock reading, and the fixed category tag. -/
def persistedRecord (env : QueryEnv) (query : HealthQuery)
    (ai_response : String) : ChatRecord :=
  { id := env.query_uuid
    user_id := query.user_id.getD "anonymous"
    question := query.question
    answer := ai_response
    timestamp := env.clock 0
    category := some "general_health" }

/-- `ask_health_question` (server.py lines 92-138): validate, call the
completion capability with the trimmed question, persist the record with
the raw question and a fresh clock reading, and answer with a second clock
reading; any failure after validation surfaces as a generic 500 error. -/
def ask_health_question (env : QueryEnv) (store : List ChatRecord)
    (query : HealthQuery) : QueryOutcome :=
  if query.question = "" ∨ pyStrip query.question = "" then
    { result := Except.error ⟨422, "Question cannot be empty"⟩
      store := store
      sentMessage := none }
  else
    match env.completion (mkSessionId env.session_uuid) (pyStrip query.question) with
    | Except.error _ =>
        { result := Except.error ⟨500, genericQueryErrorDetail⟩
          store := store
          sentMessage := some (pyStrip query.question) }
    | Except.ok ai_response =>
        if env.insertOk then
          { result := Except.ok
              { answer := ai_response
                query_id := env.query_uuid
                timestamp := env.clock 1 }
            store := store ++ [persistedRecord env query ai_response]
            sentMessage := some (pyStrip query.question) }
        else
          { result := Except.error ⟨500, genericQueryErrorDetail⟩
            store := store
            sentMessage := some (pyStrip query.question) }

/-- The full `submitQuery` surface: the transport layer rejects a request
body with no `question` field with a 422 validation error before the
handler runs (pydantic model validation); otherwise the handler runs. -/
def submitQuery (env : QueryEnv) (store : List ChatRecord)
    (questionField : Option String) (userField : Option String) : QueryOutcome :=
  match questionField with
  | none =>
      { result := Except.error ⟨422, "Field required"⟩
        store := store
        sentMessage := none }
  | some q => ask_health_question env store ⟨q, userField⟩

/-- Whether a handler result is a validation (422) error. -/
def isValidationError : Except HTTPError HealthResponse → Bool
  | Except.error e => e.status_code == 422
  | Except.ok _ => false

/-- Insert a record into a list sorted by timestamp descending, before the
first strictly older record. -/
def insertDesc (r : ChatRecord) : List ChatRecord → List ChatRecord
  | [] => [r]
  | x :: xs =>
      if x.timestamp ≤ r.timestamp then r :: x :: xs else x :: insertDesc r xs

/-- Sort records by timestamp descending: the model of
`.sort("timestamp", -1)` on the Mongo cursor. -/
def sortByTimestampDesc : List ChatRecord → List ChatRecord
  | [] => []
  | x :: xs => insertDesc x (sortByTimestampDesc xs)

/-- Rebuild a `ChatMessage` from a stored document, defaulting a missing
category, as at lines 153-160 of server.py. -/
def toChatMessage (msg : ChatRecord) : ChatMessage :=
  { id := msg.id
    user_id := msg.user_id
    question := msg.question
    answer := msg.answer
    timestamp := msg.timestamp
    category := some (msg.category.getD "general_health") }

/-- `get_chat_history` (server.py lines 140-162): count all of the user's
records, then return the page obtained by sorting the user's records by
timestamp descending, skipping `skip` and taking `limit`. -/
def get_chat_history (store : List ChatRecord) (user_id : String)
    (limit : Nat) (skip : Nat) : ChatHistoryResponse :=
  let matching := List.filter (fun r => r.user_id == user_id) store
  let total := matching.length
  let page := ((sortByTimestampDesc matching).drop skip).take limit
  { messages := page.map toChatMessage, total := total }

/-- Start of the current UTC day: the model of
`datetime.now(timezone.utc).replace(hour=0, minute=0, second=0, microsecond=0)`
at line 176 of server.py. -/
def startOfCurrentUTCDay (now : Nat) : Nat := now / 86400 * 86400

/-- `get_health_stats` (server.py lines 168-188): total count, distinct
user count, and count of records stamped at or after the start of the
current UTC day. -/
def get_health_stats (store : List ChatRecord) (now : Nat) : HealthStats :=
  let total_queries := store.length
  let unique_users := (store.map (fun r => r.user_id)).dedup.length
  let yesterday := startOfCurrentUTCDay now
  let recent_queries :=
    (List.filter (fun r => yesterday ≤ r.timestamp) store).length
  { total_queries := total_queries
    unique_users := unique_users
    recent_queries_24h := recent_queries
    status := "active" }

/-! Concrete inputs used by counterexamples and witnesses. -/

/-- An environment whose completion capability always succeeds and whose
insert succeeds: the success path. -/
def c1Env : QueryEnv :=
  { completion := fun _ _ => Except.ok "generated answer"
    insertOk := true
    session_uuid := "sess-uuid"
    query_uuid := "query-uuid"
    clock := fun n => n }

/-- An environment whose completion succeeds but whose insert fails. -/
def c2Env : QueryEnv :=
  { completion := fun _ _ => Except.ok "generated answer"
    insertOk := false
    session_uuid := "sess-uuid"
    query_uuid := "query-uuid"
    clock := fun n => n }

/-- Record for user u1 at time T1 = 100. -/
def c3r1 : ChatRecord := ⟨"id1", "u1", "q1", "a1", 100, some "general_health"⟩

/-- Record for user u1 at time T2 = 200. -/
def c3r2 : ChatRecord := ⟨"id2", "u1", "q2", "a2", 200, some "general_health"⟩

/-- Record for user u1 at time T3 = 300. -/
def c3r3 : ChatRecord := ⟨"id3", "u1", "q3", "a3", 300, some "general_health"⟩

/-- A store holding exactly three records for user u1, inserted at times
T1 < T2 < T3. -/
def c3Store : List ChatRecord := [c3r1, c3r2, c3r3]

/-- A store holding one record, for user u2 only. -/
def c7Store : List ChatRecord := [⟨"idz", "u2", "qz", "az", 50, some "general_health"⟩]

/-- A store holding one record stamped at time 0 (inside UTC day 0). -/
def c8Store : List ChatRecord := [⟨"idw", "u3", "qw", "aw", 0, some "general_health"⟩]

/-- An environment whose completion capability ignores the session
identifier, with session token s1. -/
def c9Env1 : QueryEnv :=
  { completion := fun _ msg => Except.ok ("echo " ++ msg)
    insertOk := true
    session_uuid := "token-s1"
    query_uuid := "query-uuid"
    clock := fun n => n }

/-- An environment whose clock readings are 5, 6, 7, ... -/
def c10Env : QueryEnv :=
  { completion := fun _ _ => Except.ok "generated answer"
    insertOk := true
    session_uuid := "sess-uuid"
    query_uuid := "query-uuid"
    clock := fun n => 5 + n }

/-! Branch lemmas for `ask_health_question`, one per control-flow path. -/

/-- Validation failure path (server.py lines 95-96). -/
theorem ask_invalid (env : QueryEnv) (store : List ChatRecord) (query : HealthQuery)
    (h : query.question = "" ∨ pyStrip query.question = "") :
    ask_health_question env store query =
      { result := Except.error ⟨422, "Question cannot be empty"⟩
        store := store
        sentMessage := none } := by
  unfold ask_health_question
  rw [if_pos h]

/-- Upstream (completion) failure path: caught at line 136 and surfaced
as a generic 500 error. -/
theorem ask_upstream_failure (env : QueryEnv) (store : List ChatRecord)
    (query : HealthQuery) (e : String)
    (hval : ¬(query.question = "" ∨ pyStrip query.question = ""))
    (hc : env.completion (mkSessionId env.session_uuid) (pyStrip query.question)
        = Except.error e) :
    ask_health_question env store query =
      { result := Except.error ⟨500, genericQueryErrorDetail⟩
        store := store
        sentMessage := some (pyStrip query.question) } := by
  unfold ask_health_question
  rw [if_neg hval, hc]

/-- Full success path: generation and persistence both succeed. -/
theorem ask_success (env : QueryEnv) (store : List ChatRecord)
    (query : HealthQuery) (a : String)
    (hval : ¬(query.question = "" ∨ pyStrip query.question = ""))
    (hc : env.completion (mkSessionId env.session_uuid) (pyStrip query.question)
        = Except.ok a)
    (hins : env.insertOk = true) :
    ask_health_question env store query =
      { result := Except.ok
          { answer := a, query_id := env.query_uuid, timestamp := env.clock 1 }
        store := store ++ [persistedRecord env query a]
        sentMessage := some (pyStrip query.question) } := by
  unfold ask_health_question
  rw [if_neg hval, hc, hins]
  simp

/-- Storage failure path: generation succeeded, `insert_one` raised,
caught at line 136 and surfaced as a generic 500 error. -/
theorem ask_storage_failure (env : QueryEnv) (store : List ChatRecord)
    (query : HealthQuery) (a : String)
    (hval : ¬(query.question = "" ∨ pyStrip query.question = ""))
    (hc : env.completion (mkSessionId env.session_uuid) (pyStrip query.question)
        = Except.ok a)
    (hins : env.insertOk = false) :
    ask_health_question env store query =
      { result := Except.error ⟨500, genericQueryErrorDetail⟩
        store := store
        sentMessage := some (pyStrip query.question) } := by
  unfold ask_health_question
  rw [if_neg hval, hc, hins]
  simp

/-- Inversion of the success path: if the handler answered 200, then the
question passed validation, the insert succeeded, the completion call
returned exactly the reported answer, the reported identifier and
timestamp are the generated identifier and the second clock reading, and
the store grew by exactly the persisted record. -/
theorem ask_result_ok_inv (env : QueryEnv) (store : List ChatRecord)
    (query : HealthQuery) (resp : HealthResponse)
    (h : (ask_health_question env store query).result = Except.ok resp) :
    ¬(query.question = "" ∨ pyStrip query.question = "")
    ∧ env.insertOk = true
    ∧ env.completion (mkSessionId env.session_uuid) (pyStrip query.question)
        = Except.ok resp.answer
    ∧ resp.query_id = env.query_uuid
    ∧ resp.timestamp = env.clock 1
    ∧ (ask_health_question env store query).store
        = store ++ [persistedRecord env query resp.answer]
    ∧ (ask_health_question env store query).sentMessage
        = some (pyStrip query.question) := by
  by_cases hval : query.question = "" ∨ pyStrip query.question = ""
  · rw [ask_invalid env store query hval] at h
    exact absurd h (by simp)
  · cases hc : env.completion (mkSessionId env.session_uuid) (pyStrip query.question) with
    | error e =>
        rw [ask_upstream_failure env store query e hval hc] at h
        exact absurd h (by simp)
    | ok a =>
        cases hins : env.insertOk with
        | false =>
            rw [ask_storage_failure env store query a hval hc hins] at h
            exact absurd h (by simp)
        | true =>
            rw [ask_success env store query a hval hc hins] at h
            simp only [Except.ok.injEq] at h
            subst h
            dsimp only
            exact ⟨hval, rfl, rfl, rfl, rfl,
              by rw [ask_success env store query a hval hc hins],
              by rw [ask_success env store query a hval hc hins]⟩

/-! Claim theorems. -/

/-- C1, counterexample: for the question with surrounding whitespace
"  hello ", a successful run persists a record whose question field is the
raw "  hello ", not the trimmed "hello": the claim that the persisted
question equals the trimmed question is false on the code (line 122 of
server.py stores `query.question`, not `query.question.strip()`). -/
theorem C1_counterexample :
    Except.isOk (ask_health_question c1Env [] ⟨"  hello ", none⟩).result = true
    ∧ (ask_health_question c1Env [] ⟨"  hello ", none⟩).store.map ChatRecord.question
        = ["  hello "]
    ∧ pyStrip "  hello " = "hello"
    ∧ ("  hello " : String) ≠ "hello" := by decide

/-- C1, amended: for every non-empty-after-trimming question, a successful
run persists exactly one new record whose question field equals the RAW
question as submitted (untrimmed), while the trimmed question is what is
sent to the completion capability; the response itself carries no question
field. -/
theorem C1_persisted_question_raw (env : QueryEnv) (store : List ChatRecord)
    (q : String) (u : Option String) (resp : HealthResponse)
    (h : (ask_health_question env store ⟨q, u⟩).result = Except.ok resp) :
    (ask_health_question env store ⟨q, u⟩).store.map ChatRecord.question
      = store.map ChatRecord.question ++ [q]
    ∧ (ask_health_question env store ⟨q, u⟩).sentMessage = some (pyStrip q) := by
  obtain ⟨-, -, -, -, -, hstore, hsent⟩ := ask_result_ok_inv env store ⟨q, u⟩ resp h
  constructor
  · rw [hstore]
    simp [persistedRecord]
  · exact hsent

/-- C1 witness: the amended claim evaluated on the success environment and
the question "hi". -/
theorem C1_witness :
    (ask_health_question c1Env [] ⟨"hi", none⟩).store.map ChatRecord.question
        = ([] : List ChatRecord).map ChatRecord.question ++ ["hi"]
    ∧ (ask_health_question c1Env [] ⟨"hi", none⟩).sentMessage = some (pyStrip "hi") :=
  C1_persisted_question_raw c1Env [] "hi" none
    { answer := "generated answer", query_id := "query-uuid", timestamp := 1 } rfl

/-- C2: when the completion call succeeds but the insert fails, no record
is persisted (the store is unchanged), the generated answer is discarded,
and the caller receives the generic 500 error, never a success response. -/
theorem C2_insert_failure_discards_answer (env : QueryEnv) (store : List ChatRecord)
    (q : String) (u : Option String)
    (hval : pyStrip q ≠ "")
    (hcomp : Except.isOk (env.completion (mkSessionId env.session_uuid) (pyStrip q)) = true)
    (hins : env.insertOk = false) :
    (ask_health_question env store ⟨q, u⟩).result
        = Except.error ⟨500, genericQueryErrorDetail⟩
    ∧ (ask_health_question env store ⟨q, u⟩).store = store := by
  have hval2 : ¬((⟨q, u⟩ : HealthQuery).question = ""
      ∨ pyStrip (⟨q, u⟩ : HealthQuery).question = "") := by
    intro hor
    cases hor with
    | inl h0 =>
        apply hval
        rw [show q = "" from h0]
        decide
    | inr h0 => exact hval h0
  cases hc : env.completion (mkSessionId env.session_uuid) (pyStrip q) with
  | error e =>
      rw [hc] at hcomp
      simp [Except.isOk, Except.toBool] at hcomp
  | ok a =>
      rw [ask_storage_failure env store ⟨q, u⟩ a hval2 hc hins]
      exact ⟨rfl, rfl⟩

/-- C2 witness: insert failure with a successful completion on question
"hi" yields the generic 500 error and an unchanged (empty) store. -/
theorem C2_witness :
    (ask_health_question c2Env [] ⟨"hi", none⟩).result
        = Except.error ⟨500, genericQueryErrorDetail⟩
    ∧ (ask_health_question c2Env [] ⟨"hi", none⟩).store = [] :=
  C2_insert_failure_discards_answer c2Env [] "hi" none (by decide) rfl rfl

/-- C3: on a store holding exactly three records for user u1 with
timestamps 100 < 200 < 300, history with limit 2 and skip 0 returns the
records stamped 300 and 200 with total 3; skip 2 returns the record
stamped 100 with total 3; and the out-of-range skip 5 returns the empty
page with total 3, not an error. -/
theorem C3_pagination_concrete :
    ((get_chat_history c3Store "u1" 2 0).messages.map ChatMessage.timestamp = [300, 200]
      ∧ (get_chat_history c3Store "u1" 2 0).messages.map ChatMessage.id = ["id3", "id2"]
      ∧ (get_chat_history c3Store "u1" 2 0).total = 3)
    ∧ ((get_chat_history c3Store "u1" 2 2).messages.map ChatMessage.timestamp = [100]
      ∧ (get_chat_history c3Store "u1" 2 2).messages.map ChatMessage.id = ["id1"]
      ∧ (get_chat_history c3Store "u1" 2 2).total = 3)
    ∧ ((get_chat_history c3Store "u1" 2 5).messages = []
      ∧ (get_chat_history c3Store "u1" 2 5).total = 3) := by decide

/-- C4: an empty question, a whitespace-only question, and a missing
question field each yield a 422 validation error; in those executions the
completion capability is never invoked (no message is sent) and the store
is unchanged (no record written). -/
theorem C4_validation_no_side_effects (env : QueryEnv) (store : List ChatRecord)
    (questionField : Option String) (userField : Option String)
    (h : (questionField.map pyStrip).getD "" = "") :
    isValidationError (submitQuery env store questionField userField).result = true
    ∧ (submitQuery env store questionField userField).store = store
    ∧ (submitQuery env store questionField userField).sentMessage = none := by
  cases questionField with
  | none => exact ⟨rfl, rfl, rfl⟩
  | some q =>
      have h2 : pyStrip q = "" := h
      have hsub : submitQuery env store (some q) userField
          = ask_health_question env store ⟨q, userField⟩ := rfl
      rw [hsub, ask_invalid env store ⟨q, userField⟩ (Or.inr h2)]
      exact ⟨rfl, rfl, rfl⟩

/-- C4 witness: the three concrete invalid requests — empty question,
whitespace-only question, missing question field — each rejected with no
completion call and no write. -/
theorem C4_witness :
    (isValidationError (submitQuery c1Env [] (some "") none).result = true
      ∧ (submitQuery c1Env [] (some "") none).store = []
      ∧ (submitQuery c1Env [] (some "") none).sentMessage = none)
    ∧ (isValidationError (submitQuery c1Env [] (some "   ") none).result = true
      ∧ (submitQuery c1Env [] (some "   ") none).store = []
      ∧ (submitQuery c1Env [] (some "   ") none).sentMessage = none)
    ∧ (isValidationError (submitQuery c1Env [] none none).result = true
      ∧ (submitQuery c1Env [] none none).store = []
      ∧ (submitQuery c1Env [] none none).sentMessage = none) :=
  ⟨C4_validation_no_side_effects c1Env [] (some "") none (by decide),
   C4_validation_no_side_effects c1Env [] (some "   ") none (by decide),
   C4_validation_no_side_effects c1Env [] none none rfl⟩

/-- C5: the total field of a history response equals the count of all
stored records whose user identifier matches, for every limit and skip:
it is independent of the pagination window. -/
theorem C5_total_counts_all_matches (store : List ChatRecord) (u : String)
    (l1 s1 l2 s2 : Nat) :
    (get_chat_history store u l1 s1).total
      = (List.filter (fun r => r.user_id == u) store).length
    ∧ (get_chat_history store u l1 s1).total = (get_chat_history store u l2 s2).total :=
  ⟨rfl, rfl⟩

/-- C6: in a single stats call over any store state, the count of records
stamped at or after the start of the current UTC day never exceeds the
total record count. -/
theorem C6_recent_le_total (store : List ChatRecord) (now : Nat) :
    (get_health_stats store now).recent_queries_24h
      ≤ (get_health_stats store now).total_queries := by
  simp only [get_health_stats]
  exact List.length_filter_le _ _

/-- C7: for every user with zero stored records (including unknown users)
and every limit and skip, history returns the empty page with total 0 as a
success outcome, never an error. -/
theorem C7_empty_history_success (store : List ChatRecord) (u : String)
    (limit skip : Nat)
    (h : List.filter (fun r => r.user_id == u) store = []) :
    get_chat_history store u limit skip = { messages := [], total := 0 } := by
  simp only [get_chat_history]
  rw [h]
  simp [sortByTimestampDesc]

/-- C7 witness: history for the record-less user u1 over a store holding
only a record of user u2. -/
theorem C7_witness :
    get_chat_history c7Store "u1" 20 0 = { messages := [], total := 0 } :=
  C7_empty_history_success c7Store "u1" 20 0 (by decide)

/-- C8, counterexample: two stats calls against the same one-record store
with no intervening writes return different results when the wall clock
has crossed a UTC day boundary between the calls (the record stamped at
time 0 is recent at time 0 but not at time 86400), so the claim that
repeated getStats calls always return identical results is false on the
code. -/
theorem C8_counterexample :
    get_health_stats c8Store 0 ≠ get_health_stats c8Store 86400 := by decide

/-- C8, amended: repeated getHistory calls with the same arguments and no
intervening writes return identical results, and repeated getStats calls
with no intervening writes return identical results provided both calls
compute the same start of the current UTC day (both fall in the same UTC
day); across a day boundary recent_queries_24h may change without any
write. -/
theorem C8_reads_idempotent_same_day (store : List ChatRecord) (u : String)
    (limit skip : Nat) (t1 t2 : Nat)
    (h : startOfCurrentUTCDay t1 = startOfCurrentUTCDay t2) :
    get_chat_history store u limit skip = get_chat_history store u limit skip
    ∧ get_health_stats store t1 = get_health_stats store t2 := by
  refine ⟨rfl, ?_⟩
  simp only [get_health_stats]
  rw [h]

/-- C8 witness: two stats calls at times 10 and 20 of the same UTC day
over the one-record store agree, and history is idempotent. -/
theorem C8_witness :
    get_chat_history c8Store "u3" 20 0 = get_chat_history c8Store "u3" 20 0
    ∧ get_health_stats c8Store 10 = get_health_stats c8Store 20 :=
  C8_reads_idempotent_same_day c8Store "u3" 20 0 10 20 (by decide)

/-- C9: the per-request session token is never exposed to the caller and
never persisted: two executions that differ only in the minted token (and
in which the external completion capability returns the same answer to
the one call it receives) produce the same outcome — the same response,
the same store contents, and the same sent message. -/
theorem C9_token_noninterference (env : QueryEnv) (t : String)
    (store : List ChatRecord) (query : HealthQuery)
    (hcomp : env.completion (mkSessionId t) (pyStrip query.question)
           = env.completion (mkSessionId env.session_uuid) (pyStrip query.question)) :
    ask_health_question { env with session_uuid := t } store query
      = ask_health_question env store query := by
  by_cases hval : query.question = "" ∨ pyStrip query.question = ""
  · rw [ask_invalid { env with session_uuid := t } store query hval,
        ask_invalid env store query hval]
  · cases hc : env.completion (mkSessionId env.session_uuid) (pyStrip query.question) with
    | error e =>
        rw [ask_upstream_failure { env with session_uuid := t } store query e hval
              (hcomp.trans hc),
            ask_upstream_failure env store query e hval hc]
    | ok a =>
        rcases Bool.eq_false_or_eq_true env.insertOk with hins | hins
        · rw [ask_success { env with session_uuid := t } store query a hval
                (hcomp.trans hc) hins,
              ask_success env store query a hval hc hins]
          rfl
        · rw [ask_storage_failure { env with session_uuid := t } store query a hval
                (hcomp.trans hc) hins,
              ask_storage_failure env store query a hval hc hins]

/-- C9 witness: replacing the token s1 by s2 under a token-blind
completion capability leaves the whole outcome unchanged. -/
theorem C9_witness :
    ask_health_question { c9Env1 with session_uuid := "token-s2" } [] ⟨"hi", none⟩
      = ask_health_question c9Env1 [] ⟨"hi", none⟩ :=
  C9_token_noninterference c9Env1 "token-s2" [] ⟨"hi", none⟩ rfl

/-- C10: on every successful run under a monotone wall clock, the
persisted record carries the first clock reading (taken before the insert)
while the response carries the second, later reading taken after the
insert completes; the response timestamp is therefore a distinct reading,
greater than or equal to the persisted one. -/
theorem C10_two_clock_readings (env : QueryEnv) (store : List ChatRecord)
    (query : HealthQuery) (resp : HealthResponse)
    (hclk : env.clock 0 ≤ env.clock 1)
    (h : (ask_health_question env store query).result = Except.ok resp) :
    ((ask_health_question env store query).store.getLast?).map ChatRecord.timestamp
        = some (env.clock 0)
    ∧ resp.timestamp = env.clock 1
    ∧ env.clock 0 ≤ resp.timestamp := by
  obtain ⟨-, -, -, -, hts, hstore, -⟩ := ask_result_ok_inv env store query resp h
  refine ⟨?_, hts, ?_⟩
  · rw [hstore]
    simp [persistedRecord]
  · rw [hts]
    exact hclk

/-- C10 witness: with clock readings 5, 6, ... the persisted record is
stamped 5 and the response is stamped 6, a distinct later reading. -/
theorem C10_witness :
    ((ask_health_question c10Env [] ⟨"hi", none⟩).store.getLast?).map ChatRecord.timestamp
        = some (c10Env.clock 0)
    ∧ ({ answer := "generated answer", query_id := "query-uuid", timestamp := 6 }
        : HealthResponse).timestamp = c10Env.clock 1
    ∧ c10Env.clock 0
        ≤ ({ answer := "generated answer", query_id := "query-uuid", timestamp := 6 }
            : HealthResponse).timestamp :=
  C10_two_clock_readings c10Env [] ⟨"hi", none⟩
    { answer := "generated answer", query_id := "query-uuid", timestamp := 6 }
    (by decide) rfl

end HealthBot
